import Mathlib

/-!
Verification of the homework-status polling bot (homework.py).

The script polls a grading API for homework status changes, formats them,
and forwards notifications to a chat, deduplicating against the last
message sent. We shallowly embed its pure logic: JSON payloads become an
inductive value type, the HTTP layer becomes an abstract per-cycle outcome
supplied by the environment, exceptions become an error type carried in
Except, and the main loop becomes a state-transition function that also
records the observable events (message sends, sleeps) of each cycle.
-/

set_option autoImplicit false

namespace HomeworkBot

/-- A decoded JSON value, as returned by response.json() in homework.py.
Numbers are modelled as integers (the API contract uses integer UNIX
timestamps); objects keep insertion order like Python dicts. -/
inductive JsonValue where
  | str (s : String)
  | num (n : Int)
  | bool (b : Bool)
  | null
  | arr (elems : List JsonValue)
  | obj (fields : List (String × JsonValue))

/-- First-match lookup in an object's field list, mirroring Python dict
key access (keys are unique in a real dict, so first match is the match). -/
def jsonLookup : List (String × JsonValue) → String → Option JsonValue
  | [], _ => none
  | (k, v) :: rest, key => if k = key then some v else jsonLookup rest key

/-- Python dict.get on a JSON value: field lookup when it is an object. -/
def jsonGet (j : JsonValue) (key : String) : Option JsonValue :=
  match j with
  | .obj fields => jsonLookup fields key
  | _ => none

/-- Python type(x).__name__ for the values we model, used in error texts. -/
def pyTypeName : JsonValue → String
  | .str _ => "str"
  | .num _ => "int"
  | .bool _ => "bool"
  | .null => "NoneType"
  | .arr _ => "list"
  | .obj _ => "dict"

mutual

/-- Python repr() of a JSON value (string escaping inside container
renderings is simplified; no claim depends on it). -/
def pyRepr : JsonValue → String
  | .str s => "'" ++ s ++ "'"
  | .num n => toString n
  | .bool b => if b then "True" else "False"
  | .null => "None"
  | .arr elems => "[" ++ String.intercalate ", " (pyReprList elems) ++ "]"
  | .obj fields =>
      "\x7b" ++ String.intercalate ", " (pyReprFields fields) ++ "\x7d"

/-- repr() of each element of a list. -/
def pyReprList : List JsonValue → List String
  | [] => []
  | x :: xs => pyRepr x :: pyReprList xs

/-- repr() of each key-value pair of a dict. -/
def pyReprFields : List (String × JsonValue) → List String
  | [] => []
  | (k, v) :: fs => ("'" ++ k ++ "': " ++ pyRepr v) :: pyReprFields fs

end

/-- Python str() of a JSON value, as interpolated by f-strings. -/
def pyStr : JsonValue → String
  | .str s => s
  | v => pyRepr v

/-- The exception kinds raised in homework.py, each carrying its message.
telegramDelivery stands for the exceptions bot.send_message can raise
(ApiTelegramException or requests.RequestException reaching the caller). -/
inductive PyError where
  | typeError (msg : String)
  | keyError (msg : String)
  | valueError (msg : String)
  | apiRequestError (msg : String)
  | environmentError (msg : String)
  | telegramDelivery (msg : String)

/-- Python str() of an exception as used by f-string interpolation of a
caught error: the message, except KeyError which renders as the repr of
its argument (quoted). -/
def errStr : PyError → String
  | .typeError m => m
  | .keyError m => "'" ++ m ++ "'"
  | .valueError m => m
  | .apiRequestError m => m
  | .environmentError m => m
  | .telegramDelivery m => m

/-- RETRY_PERIOD = 600 (seconds between poll cycles). -/
def RETRY_PERIOD : Nat := 600

/-- ENDPOINT URL constant. -/
def ENDPOINT : String := "https://practicum.yandex.ru/api/user_api/homework_statuses/"

/-- HOMEWORK_VERDICTS: the fixed status-to-verdict table. -/
def HOMEWORK_VERDICTS : List (String × String) :=
  [("approved", "Работа проверена: ревьюеру всё понравилось. Ура!"),
   ("reviewing", "Работа взята на проверку ревьюером."),
   ("rejected", "Работа проверена: у ревьюера есть замечания.")]

/-- The rendering of params=\x7b"from_date": timestamp\x7d inside the
error texts of get_api_answer. -/
def fromDateParams (timestamp : JsonValue) : String :=
  "\x7b\"from_date\": " ++ pyStr timestamp ++ "\x7d"

/-- Message of the APIRequestError raised when requests.get itself fails. -/
def apiNetErrMsg (timestamp : JsonValue) (err : String) : String :=
  "Сбой при запросе к API. Эндпоинт: " ++ ENDPOINT ++ ", параметры: " ++
    fromDateParams timestamp ++ ". Ошибка: " ++ err

/-- Message of the APIRequestError raised on a non-200 HTTP status. -/
def apiStatusErrMsg (timestamp : JsonValue) (status : Nat) : String :=
  "Эндпоинт недоступен. Код ответа: " ++ toString status ++ ". URL: " ++
    ENDPOINT ++ ", параметры: " ++ fromDateParams timestamp

/-- Message of the ValueError raised when the body fails to decode as JSON. -/
def jsonDecodeErrMsg (timestamp : JsonValue) (err : String) : String :=
  "Ошибка преобразования ответа в JSON. Эндпоинт: " ++ ENDPOINT ++
    ", параметры: " ++ fromDateParams timestamp ++ ", ошибка: " ++ err

/-- The outcome of one HTTP GET attempt, supplied by the environment:
either requests.get raised (netError with the exception's text), or a
response arrived with a status code and a body whose JSON decoding either
succeeded or failed with a decode-error text. -/
inductive HttpOutcome where
  | netError (errText : String)
  | response (status : Nat) (body : Except String JsonValue)

/-- get_api_answer: performs the GET for the given from_date cursor.
A network-level failure becomes an APIRequestError wrapping the cause; a
non-200 status becomes an APIRequestError carrying the status code; an
undecodable body becomes a ValueError; otherwise the decoded JSON payload
is returned verbatim. -/
def get_api_answer (timestamp : JsonValue) (outcome : HttpOutcome) :
    Except PyError JsonValue :=
  match outcome with
  | .netError err => .error (.apiRequestError (apiNetErrMsg timestamp err))
  | .response status body =>
      if status ≠ 200 then
        .error (.apiRequestError (apiStatusErrMsg timestamp status))
      else
        match body with
        | .ok j => .ok j
        | .error err => .error (.valueError (jsonDecodeErrMsg timestamp err))

/-- check_response: validates the payload shape. Non-dict payloads raise
TypeError; a dict without the homeworks key raises KeyError; a homeworks
value that is not a list raises TypeError; otherwise the homeworks list is
returned unchanged. The adjacent f-string literals in the source join
without a space, which the message texts reproduce. -/
def check_response (response : JsonValue) : Except PyError (List JsonValue) :=
  match response with
  | .obj fields =>
      match jsonLookup fields "homeworks" with
      | none => .error (.keyError "Отсутствует ключ \"homeworks\" в ответе API")
      | some hv =>
          match hv with
          | .arr xs => .ok xs
          | _ => .error (.typeError
              ("Тип данных \"homeworks\" не является списком,получен тип: " ++
                pyTypeName hv))
  | _ => .error (.typeError
      ("Ответ API не является словарём,получен тип: " ++ pyTypeName response))

/-- parse_status: extracts and formats a homework record's status. Missing
keys (homework_name and/or status, in that order) raise a KeyError naming
them joined by a comma; a status outside HOMEWORK_VERDICTS raises a
ValueError naming it; otherwise the formatted sentence is returned. A
record that is not a dict raises TypeError, as the Python membership test
does on non-iterable values. -/
def parse_status (homework : JsonValue) : Except PyError String :=
  match homework with
  | .obj fields =>
      match jsonLookup fields "homework_name", jsonLookup fields "status" with
      | none, none =>
          .error (.keyError "Отсутствуют ключи в ответе API: homework_name, status")
      | none, some _ =>
          .error (.keyError "Отсутствуют ключи в ответе API: homework_name")
      | some _, none =>
          .error (.keyError "Отсутствуют ключи в ответе API: status")
      | some hname, some status =>
          match status with
          | .str s =>
              match HOMEWORK_VERDICTS.lookup s with
              | some verdict =>
                  .ok ("Изменился статус проверки работы \"" ++ pyStr hname ++
                    "\". " ++ verdict)
              | none =>
                  .error (.valueError ("Неизвестный статус работы: " ++ pyStr status))
          | _ => .error (.valueError ("Неизвестный статус работы: " ++ pyStr status))
  | _ => .error (.typeError
      ("argument of type '" ++ pyTypeName homework ++ "' is not iterable"))

/-- The three environment credentials read at startup. none models an
unset variable; Python truthiness also treats the empty string as missing. -/
structure Tokens where
  practicum : Option String
  telegram : Option String
  chatId : Option String

/-- Python falsiness of a credential value: unset or empty string. -/
def tokenMissing : Option String → Bool
  | none => true
  | some s => s.isEmpty

/-- The names of the missing credentials, in the insertion order of the
tokens dict in check_tokens. -/
def missingTokenNames (t : Tokens) : List String :=
  (([("PRACTICUM_TOKEN", t.practicum), ("TELEGRAM_TOKEN", t.telegram),
     ("TELEGRAM_CHAT_ID", t.chatId)].filter
      (fun p => tokenMissing p.2)).map Prod.fst)

/-- check_tokens: raises EnvironmentError naming the missing credentials
when any of the three is unset or empty, and returns normally otherwise. -/
def check_tokens (t : Tokens) : Except PyError Unit :=
  match missingTokenNames t with
  | [] => .ok ()
  | names =>
      .error (.environmentError
        ("Отсутствуют обязательные переменные окружения: " ++
          String.intercalate ", " names))

/-- The mutable state the main loop carries across cycles: the poll cursor
(timestamp, passed as from_date) and the last message text used for
deduplication. The cursor is a JSON value because the source assigns it
whatever response.get of current_date returns; it starts as an integer. -/
structure LoopState where
  timestamp : JsonValue
  last_message : String

/-- What the environment does during one cycle: the outcome of the HTTP
GET, and whether bot.send_message succeeds if the loop invokes it for a
new status message. -/
structure CycleEnv where
  http : HttpOutcome
  sendOk : Bool

/-- The observable actions of a cycle: invocations of the Notifier
(send_message, with the message text) and sleeps (with the duration). -/
inductive Event where
  | send (msg : String)
  | sleep (secs : Nat)
deriving DecidableEq

/-- Modelled from the spec: the class APIRequestError is defined in
exceptions.py, which is absent from the source tree (only homework.py is
present). Sections 4.2 and 7 of the spec present it as the API Fetcher's
own typed failure kind, distinct from the messaging-delivery exceptions,
so only the exceptions raised by send_message (ApiTelegramException or
requests.RequestException) match the first except clause of the main
loop; every other exception kind falls to the generic except clause. -/
def caughtByNetworkClause : PyError → Bool
  | .telegramDelivery _ => true
  | _ => false

/-- The except clauses of the main loop, applied to an exception raised
by the cycle body. Telegram or network delivery errors are only logged.
Any other exception is formatted; if its text differs from last_message,
an error notification is attempted (its own failure suppressed) and
last_message is updated to the error text regardless. -/
def dispatchError (st : LoopState) (e : PyError) : LoopState × List Event :=
  if caughtByNetworkClause e then
    (st, [])
  else
    let error_message := "Сбой в работе программы: " ++ errStr e
    if st.last_message ≠ error_message then
      ({ st with last_message := error_message }, [Event.send error_message])
    else
      (st, [])

/-- One iteration of the while-True loop in main: fetch, validate, take
the first homework record, format it, send it if it differs from the last
message, then advance the cursor to current_date when present. An empty
homeworks list sleeps and continues, which still runs the finally clause,
so that path sleeps twice. A send failure for a status message aborts the
rest of the try body (neither last_message nor the cursor is updated) and
is caught by the first except clause. The finally clause appends the
unconditional sleep on every path. -/
def runCycle (st : LoopState) (env : CycleEnv) : LoopState × List Event :=
  let bodyResult :=
    match get_api_answer st.timestamp env.http with
    | .error e => dispatchError st e
    | .ok response =>
        match check_response response with
        | .error e => dispatchError st e
        | .ok homeworks =>
            match homeworks with
            | [] => (st, [Event.sleep RETRY_PERIOD])
            | homework :: _ =>
                match parse_status homework with
                | .error e => dispatchError st e
                | .ok message =>
                    if message ≠ st.last_message then
                      if env.sendOk then
                        let st1 := { st with last_message := message }
                        ({ st1 with timestamp :=
                            (jsonGet response "current_date").getD st1.timestamp },
                         [Event.send message])
                      else
                        let handled := dispatchError st (.telegramDelivery "delivery failed")
                        (handled.1, Event.send message :: handled.2)
                    else
                      ({ st with timestamp :=
                          (jsonGet response "current_date").getD st.timestamp },
                       [])
  (bodyResult.1, bodyResult.2 ++ [Event.sleep RETRY_PERIOD])

/-- Runs the loop for a finite prefix of cycles, concatenating the events. -/
def runCycles (st : LoopState) : List CycleEnv → LoopState × List Event
  | [] => (st, [])
  | env :: rest =>
      let c := runCycle st env
      let r := runCycles c.1 rest
      (r.1, c.2 ++ r.2)

/-- main: validates the credentials first; if check_tokens raises, the
error propagates and the polling loop is never entered. Otherwise the loop
starts from the current time as cursor and an empty last_message. -/
def mainRun (t : Tokens) (now : Int) (envs : List CycleEnv) :
    Except PyError (LoopState × List Event) :=
  match check_tokens t with
  | .error e => .error e
  | .ok _ => .ok (runCycles ⟨JsonValue.num now, ""⟩ envs)

/-- Number of Notifier invocations recorded in an event list. -/
def sendCount (evs : List Event) : Nat :=
  (evs.filter (fun ev => match ev with | .send _ => true | _ => false)).length

/-- Number of sleeps recorded in an event list. -/
def sleepCount (evs : List Event) : Nat :=
  (evs.filter (fun ev => match ev with | .sleep _ => true | _ => false)).length

/-- Whether a cycle hits the empty-homeworks continue path: the fetch and
shape check succeed and the homeworks list is empty. -/
def emptyHomeworksCycle (st : LoopState) (env : CycleEnv) : Bool :=
  match get_api_answer st.timestamp env.http with
  | .ok response =>
      match check_response response with
      | .ok [] => true
      | _ => false
  | _ => false

/-- Whether a JSON value is an object (a Python dict). -/
def jsonIsDict : JsonValue → Bool
  | .obj _ => true
  | _ => false

/-- Whether a JSON value is an array (a Python list). -/
def jsonIsList : JsonValue → Bool
  | .arr _ => true
  | _ => false

/-- The message texts of the Notifier invocations in an event list, in
order. -/
def sentMessages : List Event → List String
  | [] => []
  | Event.send m :: evs => m :: sentMessages evs
  | Event.sleep _ :: evs => sentMessages evs

theorem sentMessages_append (a b : List Event) :
    sentMessages (a ++ b) = sentMessages a ++ sentMessages b := by
  induction a with
  | nil => rfl
  | cons ev evs ih => cases ev <;> simp [sentMessages, ih]

theorem dispatchError_timestamp (st : LoopState) (e : PyError) :
    (dispatchError st e).1.timestamp = st.timestamp := by
  simp only [dispatchError]
  split
  · rfl
  · split <;> rfl

theorem dispatchError_generic (st : LoopState) (e : PyError)
    (hkind : caughtByNetworkClause e = false)
    (hne : st.last_message ≠ "Сбой в работе программы: " ++ errStr e) :
    dispatchError st e =
      ({ st with last_message := "Сбой в работе программы: " ++ errStr e },
       [Event.send ("Сбой в работе программы: " ++ errStr e)]) := by
  unfold dispatchError
  rw [hkind]
  simp [hne]

theorem dispatchError_duplicate (st : LoopState) (e : PyError)
    (hkind : caughtByNetworkClause e = false)
    (heq : st.last_message = "Сбой в работе программы: " ++ errStr e) :
    dispatchError st e = (st, []) := by
  unfold dispatchError
  rw [hkind]
  simp [heq]

theorem runCycle_fetchErrorPath (st : LoopState) (env : CycleEnv) (e : PyError)
    (hget : get_api_answer st.timestamp env.http = .error e) :
    runCycle st env =
      ((dispatchError st e).1,
       (dispatchError st e).2 ++ [Event.sleep RETRY_PERIOD]) := by
  unfold runCycle
  rw [hget]

theorem runCycle_emptyPath (st : LoopState) (env : CycleEnv) (r : JsonValue)
    (hget : get_api_answer st.timestamp env.http = .ok r)
    (hchk : check_response r = .ok []) :
    runCycle st env = (st, [Event.sleep RETRY_PERIOD, Event.sleep RETRY_PERIOD]) := by
  unfold runCycle
  simp only [hget, hchk]
  rfl

theorem runCycle_sendPath (st : LoopState) (env : CycleEnv) (r hw : JsonValue)
    (rest : List JsonValue) (m : String)
    (hget : get_api_answer st.timestamp env.http = .ok r)
    (hchk : check_response r = .ok (hw :: rest))
    (hp : parse_status hw = .ok m)
    (hne : m ≠ st.last_message)
    (hok : env.sendOk = true) :
    runCycle st env =
      ({ timestamp := (jsonGet r "current_date").getD st.timestamp,
         last_message := m },
       [Event.send m, Event.sleep RETRY_PERIOD]) := by
  unfold runCycle
  simp only [hget, hchk, hp]
  simp [hne, hok]

theorem runCycle_skipPath (st : LoopState) (env : CycleEnv) (r hw : JsonValue)
    (rest : List JsonValue)
    (hget : get_api_answer st.timestamp env.http = .ok r)
    (hchk : check_response r = .ok (hw :: rest))
    (hp : parse_status hw = .ok st.last_message) :
    runCycle st env =
      ({ st with timestamp := (jsonGet r "current_date").getD st.timestamp },
       [Event.sleep RETRY_PERIOD]) := by
  unfold runCycle
  simp only [hget, hchk, hp]
  simp

theorem runCycle_sendFailPath (st : LoopState) (env : CycleEnv) (r hw : JsonValue)
    (rest : List JsonValue) (m : String)
    (hget : get_api_answer st.timestamp env.http = .ok r)
    (hchk : check_response r = .ok (hw :: rest))
    (hp : parse_status hw = .ok m)
    (hne : m ≠ st.last_message)
    (hfail : env.sendOk = false) :
    runCycle st env = (st, [Event.send m, Event.sleep RETRY_PERIOD]) := by
  unfold runCycle
  simp only [hget, hchk, hp]
  simp [hne, hfail, dispatchError, caughtByNetworkClause]

theorem runCycle_parseErrorPath (st : LoopState) (env : CycleEnv) (r hw : JsonValue)
    (rest : List JsonValue) (e : PyError)
    (hget : get_api_answer st.timestamp env.http = .ok r)
    (hchk : check_response r = .ok (hw :: rest))
    (hp : parse_status hw = .error e) :
    runCycle st env =
      ((dispatchError st e).1,
       (dispatchError st e).2 ++ [Event.sleep RETRY_PERIOD]) := by
  unfold runCycle
  simp only [hget, hchk, hp]

theorem runCycle_checkErrorPath (st : LoopState) (env : CycleEnv) (r : JsonValue)
    (e : PyError)
    (hget : get_api_answer st.timestamp env.http = .ok r)
    (hchk : check_response r = .error e) :
    runCycle st env =
      ((dispatchError st e).1,
       (dispatchError st e).2 ++ [Event.sleep RETRY_PERIOD]) := by
  unfold runCycle
  simp only [hget, hchk]

theorem runCycles_pair (st : LoopState) (e1 e2 : CycleEnv) :
    runCycles st [e1, e2] =
      ((runCycle (runCycle st e1).1 e2).1,
       (runCycle st e1).2 ++ ((runCycle (runCycle st e1).1 e2).2 ++ [])) := rfl

theorem sendCount_eq_sentMessages_length (evs : List Event) :
    sendCount evs = (sentMessages evs).length := by
  induction evs with
  | nil => rfl
  | cons ev evs ih =>
      cases ev <;> simp [sendCount, sentMessages, List.filter_cons] at * <;>
        exact ih

theorem dispatchError_events (st : LoopState) (e : PyError) :
    (dispatchError st e).2 = [] ∨
      ∃ msg, (dispatchError st e).2 = [Event.send msg] := by
  simp only [dispatchError]
  split
  · left
    rfl
  · split
    · right
      exact ⟨_, rfl⟩
    · left
      rfl

theorem sleepCount_dispatch_concat (st : LoopState) (e : PyError) :
    sleepCount ((dispatchError st e).2 ++ [Event.sleep RETRY_PERIOD]) = 1 ∧
    ((dispatchError st e).2 ++ [Event.sleep RETRY_PERIOD]).getLast? =
      some (Event.sleep RETRY_PERIOD) := by
  rcases dispatchError_events st e with hd | ⟨msg, hd⟩ <;> rw [hd] <;>
    exact ⟨rfl, rfl⟩

/-- C6: for every HTTP response whose status code is not 200, get_api_answer
fails with an APIRequestError whose message carries the observed status code
(the code's decimal rendering occurs in the message), and for every
network-level exception during the request it fails with an APIRequestError
whose message wraps the cause text; in both cases the result is an error,
never a payload. -/
theorem claim_C6_fetch_failures (ts : JsonValue) :
    (∀ status body, status ≠ 200 →
       get_api_answer ts (HttpOutcome.response status body) =
         Except.error (PyError.apiRequestError (apiStatusErrMsg ts status)) ∧
       ∃ pre suf, apiStatusErrMsg ts status = pre ++ (toString status ++ suf)) ∧
    (∀ err, get_api_answer ts (HttpOutcome.netError err) =
         Except.error (PyError.apiRequestError (apiNetErrMsg ts err)) ∧
       ∃ pre suf, apiNetErrMsg ts err = pre ++ (err ++ suf)) := by
  constructor
  · intro status body hne
    constructor
    · simp only [get_api_answer]
      rw [if_pos hne]
    · refine ⟨"Эндпоинт недоступен. Код ответа: ",
        ". URL: " ++ ENDPOINT ++ ", параметры: " ++ fromDateParams ts, ?_⟩
      simp [apiStatusErrMsg, String.append_assoc]
  · intro err
    constructor
    · rfl
    · refine ⟨"Сбой при запросе к API. Эндпоинт: " ++ ENDPOINT ++
        ", параметры: " ++ fromDateParams ts ++ ". Ошибка: ", "", ?_⟩
      simp [apiNetErrMsg, String.append_assoc, String.append_empty]

/-- C6 witness: at status 404 the fetch fails with the APIRequestError whose
message names 404, and a network failure with cause text boom fails with the
APIRequestError wrapping boom. -/
theorem claim_C6_fetch_failures_witness :
    (get_api_answer (JsonValue.num 0) (HttpOutcome.response 404 (Except.ok JsonValue.null)) =
       Except.error (PyError.apiRequestError (apiStatusErrMsg (JsonValue.num 0) 404)) ∧
     ∃ pre suf, apiStatusErrMsg (JsonValue.num 0) 404 = pre ++ (toString 404 ++ suf)) ∧
    (get_api_answer (JsonValue.num 0) (HttpOutcome.netError "boom") =
       Except.error (PyError.apiRequestError (apiNetErrMsg (JsonValue.num 0) "boom")) ∧
     ∃ pre suf, apiNetErrMsg (JsonValue.num 0) "boom" = pre ++ ("boom" ++ suf)) :=
  ⟨(claim_C6_fetch_failures (JsonValue.num 0)).1 404 (Except.ok JsonValue.null) (by decide),
   (claim_C6_fetch_failures (JsonValue.num 0)).2 "boom"⟩

/-- C7: check_response fails with a TypeError on every non-dict payload,
with a KeyError on every dict lacking the homeworks key, with a TypeError
on every dict whose homeworks value is not a list, and returns the
homeworks list unchanged otherwise, with no per-element validation. -/
theorem claim_C7_response_validation :
    (∀ j, jsonIsDict j = false →
       ∃ m, check_response j = Except.error (PyError.typeError m)) ∧
    (∀ fields, jsonLookup fields "homeworks" = none →
       ∃ m, check_response (JsonValue.obj fields) = Except.error (PyError.keyError m)) ∧
    (∀ fields v, jsonLookup fields "homeworks" = some v → jsonIsList v = false →
       ∃ m, check_response (JsonValue.obj fields) = Except.error (PyError.typeError m)) ∧
    (∀ fields xs, jsonLookup fields "homeworks" = some (JsonValue.arr xs) →
       check_response (JsonValue.obj fields) = Except.ok xs) := by
  refine ⟨?_, ?_, ?_, ?_⟩
  · intro j hj
    cases j <;> simp [jsonIsDict] at hj <;> exact ⟨_, rfl⟩
  · intro fields h
    unfold check_response
    simp only [h]
    exact ⟨_, rfl⟩
  · intro fields v h hv
    unfold check_response
    simp only [h]
    cases v <;> simp [jsonIsList] at hv <;> exact ⟨_, rfl⟩
  · intro fields xs h
    unfold check_response
    simp only [h]

/-- C7 witness: a number payload raises TypeError, a dict without homeworks
raises KeyError, a dict whose homeworks is a number raises TypeError, and a
dict with an empty homeworks list returns that list. -/
theorem claim_C7_response_validation_witness :
    (∃ m, check_response (JsonValue.num 0) = Except.error (PyError.typeError m)) ∧
    (∃ m, check_response (JsonValue.obj []) = Except.error (PyError.keyError m)) ∧
    (∃ m, check_response (JsonValue.obj [("homeworks", JsonValue.num 1)]) =
       Except.error (PyError.typeError m)) ∧
    check_response (JsonValue.obj [("homeworks", JsonValue.arr [])]) =
      Except.ok [] :=
  ⟨claim_C7_response_validation.1 (JsonValue.num 0) rfl,
   claim_C7_response_validation.2.1 [] rfl,
   claim_C7_response_validation.2.2.1 [("homeworks", JsonValue.num 1)]
     (JsonValue.num 1) rfl rfl,
   claim_C7_response_validation.2.2.2 [("homeworks", JsonValue.arr [])] [] rfl⟩

/-- C8: for every homework record whose homework_name is a string X and
whose status is approved, parse_status returns exactly the sentence naming
X followed by the approved verdict, and analogously for reviewing and
rejected with their fixed verdict strings. -/
theorem claim_C8_status_formatting (fields : List (String × JsonValue)) (name : String) :
    (jsonLookup fields "homework_name" = some (JsonValue.str name) →
     jsonLookup fields "status" = some (JsonValue.str "approved") →
     parse_status (JsonValue.obj fields) =
       Except.ok ("Изменился статус проверки работы \"" ++ name ++ "\". " ++
         "Работа проверена: ревьюеру всё понравилось. Ура!")) ∧
    (jsonLookup fields "homework_name" = some (JsonValue.str name) →
     jsonLookup fields "status" = some (JsonValue.str "reviewing") →
     parse_status (JsonValue.obj fields) =
       Except.ok ("Изменился статус проверки работы \"" ++ name ++ "\". " ++
         "Работа взята на проверку ревьюером.")) ∧
    (jsonLookup fields "homework_name" = some (JsonValue.str name) →
     jsonLookup fields "status" = some (JsonValue.str "rejected") →
     parse_status (JsonValue.obj fields) =
       Except.ok ("Изменился статус проверки работы \"" ++ name ++ "\". " ++
         "Работа проверена: у ревьюера есть замечания.")) := by
  refine ⟨?_, ?_, ?_⟩ <;> intro h1 h2 <;> unfold parse_status <;>
    simp only [h1, h2] <;> rfl

/-- C8 witness: the record with homework_name X and status approved formats
to exactly the claimed Russian sentence. -/
theorem claim_C8_status_formatting_witness :
    parse_status (JsonValue.obj
        [("homework_name", JsonValue.str "X"), ("status", JsonValue.str "approved")]) =
      Except.ok "Изменился статус проверки работы \"X\". Работа проверена: ревьюеру всё понравилось. Ура!" :=
  (claim_C8_status_formatting
    [("homework_name", JsonValue.str "X"), ("status", JsonValue.str "approved")] "X").1 rfl rfl

/-- C9: check_tokens succeeds on every credential triple whose three values
are all non-empty; on any triple with a missing or empty value it raises an
EnvironmentError whose diagnostic names exactly the missing credentials
(membership in the named list coincides with being missing), and main never
begins polling in that case. -/
theorem claim_C9_token_validation (t : Tokens) :
    (tokenMissing t.practicum = false ∧ tokenMissing t.telegram = false ∧
       tokenMissing t.chatId = false → check_tokens t = Except.ok ()) ∧
    (missingTokenNames t ≠ [] →
       check_tokens t = Except.error (PyError.environmentError
         ("Отсутствуют обязательные переменные окружения: " ++
           String.intercalate ", " (missingTokenNames t))) ∧
       ∀ now envs, mainRun t now envs = Except.error (PyError.environmentError
         ("Отсутствуют обязательные переменные окружения: " ++
           String.intercalate ", " (missingTokenNames t)))) ∧
    (∀ n, n ∈ missingTokenNames t ↔
       ((n = "PRACTICUM_TOKEN" ∧ tokenMissing t.practicum = true) ∨
        (n = "TELEGRAM_TOKEN" ∧ tokenMissing t.telegram = true) ∨
        (n = "TELEGRAM_CHAT_ID" ∧ tokenMissing t.chatId = true))) ∧
    ((tokenMissing t.practicum = true ∨ tokenMissing t.telegram = true ∨
       tokenMissing t.chatId = true) → missingTokenNames t ≠ []) := by
  cases hp : tokenMissing t.practicum <;> cases ht : tokenMissing t.telegram <;>
    cases hc : tokenMissing t.chatId <;>
      simp_all [missingTokenNames, check_tokens, mainRun]

/-- C9 witness: with the second credential unset and the third empty, the
validator raises the EnvironmentError naming TELEGRAM_TOKEN and
TELEGRAM_CHAT_ID and main refuses to start polling; with all three present
it succeeds. -/
theorem claim_C9_token_validation_witness :
    check_tokens ⟨some "a", none, some ""⟩ = Except.error (PyError.environmentError
      ("Отсутствуют обязательные переменные окружения: " ++
        String.intercalate ", " (missingTokenNames ⟨some "a", none, some ""⟩))) ∧
    mainRun ⟨some "a", none, some ""⟩ 0 [] = Except.error (PyError.environmentError
      ("Отсутствуют обязательные переменные окружения: " ++
        String.intercalate ", " (missingTokenNames ⟨some "a", none, some ""⟩))) ∧
    check_tokens ⟨some "a", some "b", some "c"⟩ = Except.ok () := by
  have h := (claim_C9_token_validation ⟨some "a", none, some ""⟩).2.1 (by decide)
  exact ⟨h.1, h.2 0 [], (claim_C9_token_validation ⟨some "a", some "b", some "c"⟩).1
    ⟨rfl, rfl, rfl⟩⟩

/-- C1 counterexample: on the response with an empty homeworks list and
current_date 12345, the cycle hits the continue path before the cursor
update line, so the cursor passed to the next fetch stays 100 and does not
become 12345, contradicting the claim at this concrete input. -/
theorem claim_C1_counterexample :
    (runCycle ⟨JsonValue.num 100, ""⟩
        ⟨HttpOutcome.response 200 (Except.ok (JsonValue.obj
          [("homeworks", JsonValue.arr []), ("current_date", JsonValue.num 12345)])),
         true⟩).1.timestamp ≠ JsonValue.num 12345 := by
  intro h
  have h0 : (runCycle ⟨JsonValue.num 100, ""⟩
      ⟨HttpOutcome.response 200 (Except.ok (JsonValue.obj
        [("homeworks", JsonValue.arr []), ("current_date", JsonValue.num 12345)])),
       true⟩).1.timestamp = JsonValue.num 100 := rfl
  rw [h0] at h
  injection h with h
  omega

/-- C1 (amended): the cursor is advanced to the response's current_date
(if present, else left unchanged) only on cycles that process a non-empty
homeworks list to completion (the formatted message is a duplicate, or the
send succeeds); a cycle whose homeworks list is empty leaves the cursor
unchanged even when current_date is present. -/
theorem claim_C1_cursor_advancement :
    (∀ st env r hw rest m,
       get_api_answer st.timestamp env.http = Except.ok r →
       check_response r = Except.ok (hw :: rest) →
       parse_status hw = Except.ok m →
       (m = st.last_message ∨ env.sendOk = true) →
       (runCycle st env).1.timestamp = (jsonGet r "current_date").getD st.timestamp) ∧
    (∀ st env r,
       get_api_answer st.timestamp env.http = Except.ok r →
       check_response r = Except.ok [] →
       (runCycle st env).1.timestamp = st.timestamp) := by
  constructor
  · intro st env r hw rest m hget hchk hp hcase
    by_cases heq : m = st.last_message
    · rw [runCycle_skipPath st env r hw rest hget hchk (heq ▸ hp)]
    · rcases hcase with heq' | hok
      · exact absurd heq' heq
      · rw [runCycle_sendPath st env r hw rest m hget hchk hp heq hok]
  · intro st env r hget hchk
    rw [runCycle_emptyPath st env r hget hchk]

/-- C1 witness: a completed non-empty cycle moves the cursor from 1000 to
the reported current_date 5, and an empty-list cycle leaves it at 100. -/
theorem claim_C1_cursor_advancement_witness :
    (runCycle ⟨JsonValue.num 1000, ""⟩
        ⟨HttpOutcome.response 200 (Except.ok (JsonValue.obj
          [("homeworks", JsonValue.arr [JsonValue.obj
             [("homework_name", JsonValue.str "A"), ("status", JsonValue.str "approved")]]),
           ("current_date", JsonValue.num 5)])), true⟩).1.timestamp = JsonValue.num 5 ∧
    (runCycle ⟨JsonValue.num 100, ""⟩
        ⟨HttpOutcome.response 200 (Except.ok (JsonValue.obj
          [("homeworks", JsonValue.arr []), ("current_date", JsonValue.num 12345)])),
         true⟩).1.timestamp = JsonValue.num 100 :=
  ⟨claim_C1_cursor_advancement.1 ⟨JsonValue.num 1000, ""⟩
      ⟨HttpOutcome.response 200 (Except.ok (JsonValue.obj
        [("homeworks", JsonValue.arr [JsonValue.obj
           [("homework_name", JsonValue.str "A"), ("status", JsonValue.str "approved")]]),
         ("current_date", JsonValue.num 5)])), true⟩
      (JsonValue.obj
        [("homeworks", JsonValue.arr [JsonValue.obj
           [("homework_name", JsonValue.str "A"), ("status", JsonValue.str "approved")]]),
         ("current_date", JsonValue.num 5)])
      (JsonValue.obj [("homework_name", JsonValue.str "A"), ("status", JsonValue.str "approved")])
      [] _ rfl rfl rfl (Or.inr rfl),
   claim_C1_cursor_advancement.2 ⟨JsonValue.num 100, ""⟩
      ⟨HttpOutcome.response 200 (Except.ok (JsonValue.obj
        [("homeworks", JsonValue.arr []), ("current_date", JsonValue.num 12345)])), true⟩
      (JsonValue.obj
        [("homeworks", JsonValue.arr []), ("current_date", JsonValue.num 12345)])
      rfl rfl⟩

/-- C2 counterexample: with cursor 1000, a successfully processed response
reporting current_date 5 rewinds the cursor to 5, which is smaller than
1000, contradicting the forward-only invariant at this concrete input. -/
theorem claim_C2_counterexample :
    (runCycle ⟨JsonValue.num 1000, ""⟩
        ⟨HttpOutcome.response 200 (Except.ok (JsonValue.obj
          [("homeworks", JsonValue.arr [JsonValue.obj
             [("homework_name", JsonValue.str "A"), ("status", JsonValue.str "approved")]]),
           ("current_date", JsonValue.num 5)])), true⟩).1.timestamp = JsonValue.num 5 ∧
    (5 : Int) < 1000 := ⟨rfl, by norm_num⟩

/-- C2 (amended): after any cycle the cursor either is unchanged or equals
the current_date field of the successfully fetched response; the code
trusts the server, so the cursor moves backward exactly when the server
reports a current_date smaller than the cursor. -/
theorem claim_C2_cursor_from_server (st : LoopState) (env : CycleEnv) :
    (runCycle st env).1.timestamp = st.timestamp ∨
    ∃ r, get_api_answer st.timestamp env.http = Except.ok r ∧
      jsonGet r "current_date" = some ((runCycle st env).1.timestamp) := by
  cases hget : get_api_answer st.timestamp env.http with
  | error e =>
      left
      rw [runCycle_fetchErrorPath st env e hget]
      exact dispatchError_timestamp st e
  | ok r =>
      cases hchk : check_response r with
      | error e =>
          left
          rw [runCycle_checkErrorPath st env r e hget hchk]
          exact dispatchError_timestamp st e
      | ok hws =>
          cases hws with
          | nil =>
              left
              rw [runCycle_emptyPath st env r hget hchk]
          | cons hw rest =>
              cases hp : parse_status hw with
              | error e =>
                  left
                  rw [runCycle_parseErrorPath st env r hw rest e hget hchk hp]
                  exact dispatchError_timestamp st e
              | ok m =>
                  by_cases heq : m = st.last_message
                  · rw [runCycle_skipPath st env r hw rest hget hchk (heq ▸ hp)]
                    cases hcd : jsonGet r "current_date" with
                    | none => left; simp [hcd]
                    | some v => right; exact ⟨r, rfl, by simp [hcd]⟩
                  · cases hok : env.sendOk with
                    | false =>
                        left
                        rw [runCycle_sendFailPath st env r hw rest m hget hchk hp heq hok]
                    | true =>
                        rw [runCycle_sendPath st env r hw rest m hget hchk hp heq hok]
                        cases hcd : jsonGet r "current_date" with
                        | none => left; simp [hcd]
                        | some v => right; exact ⟨r, rfl, by simp [hcd]⟩

/-- C5 counterexample: the cycle that fetches an empty homeworks list
sleeps inside the try body and then again in the finally clause, so it is
followed by two 600-second sleeps, not exactly one, contradicting the
claim at this concrete input. -/
theorem claim_C5_counterexample :
    (runCycle ⟨JsonValue.num 100, ""⟩
        ⟨HttpOutcome.response 200 (Except.ok (JsonValue.obj
          [("homeworks", JsonValue.arr []), ("current_date", JsonValue.num 12345)])),
         true⟩).2 = [Event.sleep RETRY_PERIOD, Event.sleep RETRY_PERIOD] ∧
    sleepCount (runCycle ⟨JsonValue.num 100, ""⟩
        ⟨HttpOutcome.response 200 (Except.ok (JsonValue.obj
          [("homeworks", JsonValue.arr []), ("current_date", JsonValue.num 12345)])),
         true⟩).2 = 2 := ⟨rfl, rfl⟩

/-- C5 (amended): every cycle, whatever its outcome, ends with the
unconditional finally sleep of RETRY_PERIOD = 600 seconds; cycles that
observe an empty homeworks list additionally sleep once inside the body,
so they sleep twice, and every other cycle sleeps exactly once. -/
theorem claim_C5_sleep_discipline (st : LoopState) (env : CycleEnv) :
    ((runCycle st env).2).getLast? = some (Event.sleep RETRY_PERIOD) ∧
    sleepCount (runCycle st env).2 = cond (emptyHomeworksCycle st env) 2 1 := by
  cases hget : get_api_answer st.timestamp env.http with
  | error e =>
      have hempty : emptyHomeworksCycle st env = false := by
        unfold emptyHomeworksCycle
        simp only [hget]
      rw [runCycle_fetchErrorPath st env e hget, hempty]
      exact ⟨(sleepCount_dispatch_concat st e).2, (sleepCount_dispatch_concat st e).1⟩
  | ok r =>
      cases hchk : check_response r with
      | error e =>
          have hempty : emptyHomeworksCycle st env = false := by
            unfold emptyHomeworksCycle
            simp only [hget, hchk]
          rw [runCycle_checkErrorPath st env r e hget hchk, hempty]
          exact ⟨(sleepCount_dispatch_concat st e).2, (sleepCount_dispatch_concat st e).1⟩
      | ok hws =>
          cases hws with
          | nil =>
              have hempty : emptyHomeworksCycle st env = true := by
                unfold emptyHomeworksCycle
                simp only [hget, hchk]
              rw [runCycle_emptyPath st env r hget hchk, hempty]
              exact ⟨rfl, rfl⟩
          | cons hw rest =>
              have hempty : emptyHomeworksCycle st env = false := by
                unfold emptyHomeworksCycle
                simp only [hget, hchk]
              cases hp : parse_status hw with
              | error e =>
                  rw [runCycle_parseErrorPath st env r hw rest e hget hchk hp, hempty]
                  exact ⟨(sleepCount_dispatch_concat st e).2, (sleepCount_dispatch_concat st e).1⟩
              | ok m =>
                  by_cases heq : m = st.last_message
                  · rw [runCycle_skipPath st env r hw rest hget hchk (heq ▸ hp), hempty]
                    exact ⟨rfl, rfl⟩
                  · cases hok : env.sendOk with
                    | false =>
                        rw [runCycle_sendFailPath st env r hw rest m hget hchk hp heq hok,
                          hempty]
                        exact ⟨rfl, rfl⟩
                    | true =>
                        rw [runCycle_sendPath st env r hw rest m hget hchk hp heq hok,
                          hempty]
                        exact ⟨rfl, rfl⟩

/-- C3: when two consecutive cycles format the same status message m and
the first cycle sends it, the Notifier is invoked exactly once across the
pair: the second occurrence is suppressed because it equals the
immediately preceding sent message. The suppression window is only one
message deep: an A, B, A alternation of formatted messages invokes the
Notifier three times, the repeated A not being remembered past B. -/
theorem claim_C3_duplicate_suppression
    (st : LoopState) (e1 e2 : CycleEnv) (r1 r2 hw1 hw2 : JsonValue)
    (t1 t2 : List JsonValue) (m : String)
    (hget1 : get_api_answer st.timestamp e1.http = Except.ok r1)
    (hchk1 : check_response r1 = Except.ok (hw1 :: t1))
    (hp1 : parse_status hw1 = Except.ok m)
    (hne : m ≠ st.last_message)
    (hok : e1.sendOk = true)
    (hget2 : get_api_answer (runCycle st e1).1.timestamp e2.http = Except.ok r2)
    (hchk2 : check_response r2 = Except.ok (hw2 :: t2))
    (hp2 : parse_status hw2 = Except.ok m) :
    sentMessages (runCycles st [e1, e2]).2 = [m] ∧
    sendCount (runCycles st [e1, e2]).2 = 1 ∧
    sentMessages (runCycles ⟨JsonValue.num 0, ""⟩
        [⟨HttpOutcome.response 200 (Except.ok (JsonValue.obj [("homeworks", JsonValue.arr
           [JsonValue.obj [("homework_name", JsonValue.str "A"),
             ("status", JsonValue.str "approved")]])])), true⟩,
         ⟨HttpOutcome.response 200 (Except.ok (JsonValue.obj [("homeworks", JsonValue.arr
           [JsonValue.obj [("homework_name", JsonValue.str "B"),
             ("status", JsonValue.str "approved")]])])), true⟩,
         ⟨HttpOutcome.response 200 (Except.ok (JsonValue.obj [("homeworks", JsonValue.arr
           [JsonValue.obj [("homework_name", JsonValue.str "A"),
             ("status", JsonValue.str "approved")]])])), true⟩]).2 =
      ["Изменился статус проверки работы \"A\". Работа проверена: ревьюеру всё понравилось. Ура!",
       "Изменился статус проверки работы \"B\". Работа проверена: ревьюеру всё понравилось. Ура!",
       "Изменился статус проверки работы \"A\". Работа проверена: ревьюеру всё понравилось. Ура!"] := by
  have h1 := runCycle_sendPath st e1 r1 hw1 t1 m hget1 hchk1 hp1 hne hok
  have hlast : (runCycle st e1).1.last_message = m := by rw [h1]
  have h2 := runCycle_skipPath (runCycle st e1).1 e2 r2 hw2 t2 hget2 hchk2
    (by rw [hlast]; exact hp2)
  have hsm : sentMessages (runCycles st [e1, e2]).2 = [m] := by
    rw [runCycles_pair, h2, h1]
    simp [sentMessages_append, sentMessages]
  refine ⟨hsm, ?_, rfl⟩
  rw [sendCount_eq_sentMessages_length, hsm]
  rfl

/-- C3 witness: two consecutive cycles both reporting homework A approved
send the formatted message exactly once. -/
theorem claim_C3_duplicate_suppression_witness :
    sentMessages (runCycles ⟨JsonValue.num 0, ""⟩
        [⟨HttpOutcome.response 200 (Except.ok (JsonValue.obj [("homeworks", JsonValue.arr
           [JsonValue.obj [("homework_name", JsonValue.str "A"),
             ("status", JsonValue.str "approved")]])])), true⟩,
         ⟨HttpOutcome.response 200 (Except.ok (JsonValue.obj [("homeworks", JsonValue.arr
           [JsonValue.obj [("homework_name", JsonValue.str "A"),
             ("status", JsonValue.str "approved")]])])), true⟩]).2 =
      ["Изменился статус проверки работы \"A\". Работа проверена: ревьюеру всё понравилось. Ура!"] ∧
    sendCount (runCycles ⟨JsonValue.num 0, ""⟩
        [⟨HttpOutcome.response 200 (Except.ok (JsonValue.obj [("homeworks", JsonValue.arr
           [JsonValue.obj [("homework_name", JsonValue.str "A"),
             ("status", JsonValue.str "approved")]])])), true⟩,
         ⟨HttpOutcome.response 200 (Except.ok (JsonValue.obj [("homeworks", JsonValue.arr
           [JsonValue.obj [("homework_name", JsonValue.str "A"),
             ("status", JsonValue.str "approved")]])])), true⟩]).2 = 1 ∧
    sentMessages (runCycles ⟨JsonValue.num 0, ""⟩
        [⟨HttpOutcome.response 200 (Except.ok (JsonValue.obj [("homeworks", JsonValue.arr
           [JsonValue.obj [("homework_name", JsonValue.str "A"),
             ("status", JsonValue.str "approved")]])])), true⟩,
         ⟨HttpOutcome.response 200 (Except.ok (JsonValue.obj [("homeworks", JsonValue.arr
           [JsonValue.obj [("homework_name", JsonValue.str "B"),
             ("status", JsonValue.str "approved")]])])), true⟩,
         ⟨HttpOutcome.response 200 (Except.ok (JsonValue.obj [("homeworks", JsonValue.arr
           [JsonValue.obj [("homework_name", JsonValue.str "A"),
             ("status", JsonValue.str "approved")]])])), true⟩]).2 =
      ["Изменился статус проверки работы \"A\". Работа проверена: ревьюеру всё понравилось. Ура!",
       "Изменился статус проверки работы \"B\". Работа проверена: ревьюеру всё понравилось. Ура!",
       "Изменился статус проверки работы \"A\". Работа проверена: ревьюеру всё понравилось. Ура!"] :=
  claim_C3_duplicate_suppression ⟨JsonValue.num 0, ""⟩
    ⟨HttpOutcome.response 200 (Except.ok (JsonValue.obj [("homeworks", JsonValue.arr
       [JsonValue.obj [("homework_name", JsonValue.str "A"),
         ("status", JsonValue.str "approved")]])])), true⟩
    ⟨HttpOutcome.response 200 (Except.ok (JsonValue.obj [("homeworks", JsonValue.arr
       [JsonValue.obj [("homework_name", JsonValue.str "A"),
         ("status", JsonValue.str "approved")]])])), true⟩
    (JsonValue.obj [("homeworks", JsonValue.arr
       [JsonValue.obj [("homework_name", JsonValue.str "A"),
         ("status", JsonValue.str "approved")]])])
    (JsonValue.obj [("homeworks", JsonValue.arr
       [JsonValue.obj [("homework_name", JsonValue.str "A"),
         ("status", JsonValue.str "approved")]])])
    (JsonValue.obj [("homework_name", JsonValue.str "A"),
       ("status", JsonValue.str "approved")])
    (JsonValue.obj [("homework_name", JsonValue.str "A"),
       ("status", JsonValue.str "approved")])
    [] [] _ rfl rfl rfl (by decide) rfl rfl rfl rfl

/-- C4: when the fetch raises a network error with the same cause text in
two consecutive cycles, exactly one error notification is sent across the
pair: the first cycle notifies the formatted error text and records it in
last_message, and the second cycle's identical text is suppressed by the
comparison against last_message. -/
theorem claim_C4_error_notification_dedup
    (st : LoopState) (e1 e2 : CycleEnv) (err : String)
    (h1 : e1.http = HttpOutcome.netError err)
    (h2 : e2.http = HttpOutcome.netError err)
    (hne : st.last_message ≠ "Сбой в работе программы: " ++ apiNetErrMsg st.timestamp err) :
    sentMessages (runCycles st [e1, e2]).2 =
      ["Сбой в работе программы: " ++ apiNetErrMsg st.timestamp err] ∧
    sendCount (runCycles st [e1, e2]).2 = 1 := by
  have hget1 : get_api_answer st.timestamp e1.http =
      Except.error (PyError.apiRequestError (apiNetErrMsg st.timestamp err)) := by
    rw [h1]
    rfl
  have hd1 : dispatchError st (PyError.apiRequestError (apiNetErrMsg st.timestamp err)) =
      ({ st with last_message :=
          "Сбой в работе программы: " ++ apiNetErrMsg st.timestamp err },
       [Event.send ("Сбой в работе программы: " ++ apiNetErrMsg st.timestamp err)]) :=
    dispatchError_generic st _ rfl hne
  have hr1 := runCycle_fetchErrorPath st e1 _ hget1
  have hst1 : (runCycle st e1).1 =
      { st with last_message :=
          "Сбой в работе программы: " ++ apiNetErrMsg st.timestamp err } := by
    rw [hr1, hd1]
  have hev1 : (runCycle st e1).2 =
      [Event.send ("Сбой в работе программы: " ++ apiNetErrMsg st.timestamp err),
       Event.sleep RETRY_PERIOD] := by
    rw [hr1, hd1]
    rfl
  have hget2 : get_api_answer (runCycle st e1).1.timestamp e2.http =
      Except.error (PyError.apiRequestError (apiNetErrMsg st.timestamp err)) := by
    rw [hst1, h2]
    rfl
  have hd2 : dispatchError (runCycle st e1).1
      (PyError.apiRequestError (apiNetErrMsg st.timestamp err)) =
      ((runCycle st e1).1, []) :=
    dispatchError_duplicate _ _ rfl (by rw [hst1]; rfl)
  have hr2 := runCycle_fetchErrorPath (runCycle st e1).1 e2 _ hget2
  have hev2 : (runCycle (runCycle st e1).1 e2).2 = [Event.sleep RETRY_PERIOD] := by
    rw [hr2, hd2]
    rfl
  have hsm : sentMessages (runCycles st [e1, e2]).2 =
      ["Сбой в работе программы: " ++ apiNetErrMsg st.timestamp err] := by
    rw [runCycles_pair, hev1, hev2]
    simp [sentMessages_append, sentMessages]
  refine ⟨hsm, ?_⟩
  rw [sendCount_eq_sentMessages_length, hsm]
  rfl

/-- C4 witness: two consecutive cycles whose fetch fails with the cause
text boom produce exactly one error notification, carrying the formatted
failure text. -/
theorem claim_C4_error_notification_dedup_witness :
    sentMessages (runCycles ⟨JsonValue.num 0, ""⟩
        [⟨HttpOutcome.netError "boom", true⟩, ⟨HttpOutcome.netError "boom", true⟩]).2 =
      ["Сбой в работе программы: " ++ apiNetErrMsg (JsonValue.num 0) "boom"] ∧
    sendCount (runCycles ⟨JsonValue.num 0, ""⟩
        [⟨HttpOutcome.netError "boom", true⟩, ⟨HttpOutcome.netError "boom", true⟩]).2 = 1 :=
  claim_C4_error_notification_dedup ⟨JsonValue.num 0, ""⟩
    ⟨HttpOutcome.netError "boom", true⟩ ⟨HttpOutcome.netError "boom", true⟩ "boom"
    rfl rfl (by decide)

/-- C10: if delivery of a new status message fails with a Telegram or
network exception, the cycle leaves the loop state exactly as it was — the
same status message remains eligible for resending and the same from_date
is fetched next cycle, the only observable actions being the attempted
send and the finally sleep; whereas the generic error branch updates
last_message to the error text whatever the fate of its own suppressed
notification attempt, while never touching the cursor. -/
theorem claim_C10_delivery_failure_frame :
    (∀ st env r hw rest m,
       get_api_answer st.timestamp env.http = Except.ok r →
       check_response r = Except.ok (hw :: rest) →
       parse_status hw = Except.ok m →
       m ≠ st.last_message →
       env.sendOk = false →
       runCycle st env = (st, [Event.send m, Event.sleep RETRY_PERIOD])) ∧
    (∀ st env e,
       get_api_answer st.timestamp env.http = Except.error e →
       caughtByNetworkClause e = false →
       st.last_message ≠ "Сбой в работе программы: " ++ errStr e →
       (runCycle st env).1.last_message = "Сбой в работе программы: " ++ errStr e ∧
       (runCycle st env).1.timestamp = st.timestamp) := by
  constructor
  · intro st env r hw rest m hget hchk hp hne hfail
    exact runCycle_sendFailPath st env r hw rest m hget hchk hp hne hfail
  · intro st env e hget hkind hne
    rw [runCycle_fetchErrorPath st env e hget, dispatchError_generic st e hkind hne]
    exact ⟨rfl, rfl⟩

/-- C10 witness: a failed delivery of the new status message for homework
A leaves the state at cursor 0 with empty last_message, and a generic
fetch failure updates last_message to the formatted error text. -/
theorem claim_C10_delivery_failure_frame_witness :
    runCycle ⟨JsonValue.num 0, ""⟩
        ⟨HttpOutcome.response 200 (Except.ok (JsonValue.obj
          [("homeworks", JsonValue.arr [JsonValue.obj
             [("homework_name", JsonValue.str "A"), ("status", JsonValue.str "approved")]]),
           ("current_date", JsonValue.num 5)])), false⟩ =
      (⟨JsonValue.num 0, ""⟩,
       [Event.send "Изменился статус проверки работы \"A\". Работа проверена: ревьюеру всё понравилось. Ура!",
        Event.sleep RETRY_PERIOD]) ∧
    (runCycle ⟨JsonValue.num 0, ""⟩ ⟨HttpOutcome.netError "boom", true⟩).1.last_message =
      "Сбой в работе программы: " ++
        errStr (PyError.apiRequestError (apiNetErrMsg (JsonValue.num 0) "boom")) := by
  constructor
  · exact claim_C10_delivery_failure_frame.1 ⟨JsonValue.num 0, ""⟩
      ⟨HttpOutcome.response 200 (Except.ok (JsonValue.obj
        [("homeworks", JsonValue.arr [JsonValue.obj
           [("homework_name", JsonValue.str "A"), ("status", JsonValue.str "approved")]]),
         ("current_date", JsonValue.num 5)])), false⟩
      (JsonValue.obj
        [("homeworks", JsonValue.arr [JsonValue.obj
           [("homework_name", JsonValue.str "A"), ("status", JsonValue.str "approved")]]),
         ("current_date", JsonValue.num 5)])
      (JsonValue.obj
        [("homework_name", JsonValue.str "A"), ("status", JsonValue.str "approved")])
      [] _ rfl rfl rfl (by decide) rfl
  · exact (claim_C10_delivery_failure_frame.2 ⟨JsonValue.num 0, ""⟩
      ⟨HttpOutcome.netError "boom", true⟩
      (PyError.apiRequestError (apiNetErrMsg (JsonValue.num 0) "boom"))
      rfl rfl (by decide)).1

end HomeworkBot
